import Mathlib

/-!
# Verification of the healthcare-system simulation core

Shallow embedding of `healthcare_system/simulation/components.py`,
`healthcare_system/simulation/engine.py` and (for one quality function)
`healthcare_system/simulation/core.py`, together with proofs about the
daily stepping loop, its metric series and its component stores.

Modelling conventions:
* Python `float` values are modelled as `ℚ` (the constants `0.1`, `0.7`,
  `1000000`, ... are exact in both representations for our purposes).
* `datetime` values are modelled as `ℕ` (days since an epoch);
  `timedelta(days=1)` is `+ 1` and date comparison is `≤`/`<` on `ℕ`.
* Python `dict`s are insertion-ordered association lists (`Dict α`
  below): assignment to an existing key updates in place, assignment to
  a fresh key appends; `.values()` iterates in insertion order.
* The process-global `np.random` generator is modelled as an explicit
  state `RNG`: an infinite stream `ℕ → ℚ` together with the position of
  the next unread draw.  Each call to `np.random.normal` /
  `np.random.random` consumes one draw (the draw IS the sampled value);
  `np.random.choice` over a 4-element catalog consumes one draw and
  turns it into an index.  The stream is threaded through every
  function that the Python code lets touch the global generator.
* A raised Python exception is an `Except`-style error result.  The
  mutating methods return the (possibly partially mutated) object state
  alongside the result, mirroring that a raise leaves all mutations
  performed so far in place.
* The nested payloads of electronic health records are never inspected
  by the simulation (only the set of record keys and the number of
  patients holding a record matter), so a record is modelled as its
  ordered list of field keys; `dict.update` merges key lists.
-/

/-- A Python `dict` keyed by strings: an insertion-ordered association
list.  -/
abbrev Dict (α : Type) := List (String × α)

/-- Python `d[k] = v`: overwrite in place when the key exists, append otherwise
(Python dict assignment semantics). -/
def dictInsert (k : String) (v : α) : Dict α → Dict α
  | [] => [(k, v)]
  | (k', v') :: rest =>
    if k' = k then (k, v) :: rest else (k', v') :: dictInsert k v rest

/-- Python `d.get(k)` / `k in d`: first (unique) binding of `k`. -/
def dictLookup (k : String) : Dict α → Option α
  | [] => none
  | (k', v') :: rest => if k' = k then some v' else dictLookup k rest

/-- Python `d.values()`, in insertion order. -/
def dictValues (d : Dict α) : List α := d.map Prod.snd

/-- Python `np.mean` on a list of floats: sum divided by length.  (On an empty
list `np.mean` yields `nan`; every call site below is either guarded by
an emptiness test or raises before the `nan` becomes observable, so the
`ℚ` junk value `0/0 = 0` is never observed.) -/
def npMean (l : List ℚ) : ℚ := l.sum / l.length

/-- Python `healthcare_system/models/base.py` `Location`. -/
structure Location where
  id : String
  name : String
  ltype : String
  population : ℕ
  coordinates : Dict ℚ
  parent_id : Option String
  deriving DecidableEq

/-- Python `healthcare_system/models/base.py` `Facility` (the `last_updated`
timestamp is never read by the simulation and is omitted). -/
structure Facility where
  id : String
  name : String
  ftype : String
  location_id : String
  capacity : ℕ
  staff_count : ℕ
  equipment : Dict ℤ
  services : List String
  quality_score : ℚ
  operational_status : String
  deriving DecidableEq

/-- Python `healthcare_system/models/base.py` `HealthcareWorker`. -/
structure HealthcareWorker where
  id : String
  name : String
  wtype : String
  specialization : Option String
  facility_id : String
  experience_years : ℕ
  qualifications : List String
  skills : List String
  performance_score : ℚ
  status : String
  deriving DecidableEq

/-- Python `healthcare_system/models/base.py` `Patient` (medical-history entries
are opaque to the simulation and modelled as strings). -/
structure Patient where
  id : String
  name : String
  age : ℕ
  gender : String
  location_id : String
  insurance_status : String
  medical_history : List String
  current_conditions : List String
  socioeconomic_status : String
  deriving DecidableEq

/-- Python `healthcare_system/models/base.py` `Resource` (timestamps omitted as
they are never read). -/
structure Resource where
  id : String
  name : String
  rtype : String
  quantity : ℕ
  unit_cost : ℚ
  facility_id : String
  status : String
  deriving DecidableEq

/-- Exceptions raised by the simulation code:
`StopIteration("Simulation has reached end date")` and Python's
`ZeroDivisionError`. -/
inductive SimErr where
  | simulationComplete
  | zeroDivision
  deriving DecidableEq

/-- Result of a mutating call: `ok` or a raised exception. -/
abbrev SimResult := Except SimErr Unit

/-- The process-global `np.random` generator: an infinite stream of
draws and the index of the next one. -/
structure RNG where
  g : ℕ → ℚ
  i : ℕ

/-- Consume one draw from the global generator. -/
def RNG.draw (rng : RNG) : ℚ × RNG := (rng.g rng.i, ⟨rng.g, rng.i + 1⟩)

/-! ## `components.py`: the four component subsystems driven by the
engine -/

/-- Python `components.py` `HealthcareInfrastructure` state. -/
structure HealthcareInfrastructure where
  facilities : Dict Facility
  resources : Dict Resource
  deriving DecidableEq

def HealthcareInfrastructure.empty : HealthcareInfrastructure := ⟨[], []⟩

/-- Python `HealthcareInfrastructure.add_facility`. -/
def HealthcareInfrastructure.add_facility
    (infra : HealthcareInfrastructure) (facility : Facility) :
    HealthcareInfrastructure :=
  { infra with facilities := dictInsert facility.id facility infra.facilities }

/-- Python `HealthcareInfrastructure.get_facility_utilization`.  Unknown ids
return `0.0`.  Otherwise the staffing baseline
`min(staff_count / (capacity * 0.1), 1.0)` is computed first — for
`capacity = 0` this division raises `ZeroDivisionError` — and then one
Gaussian draw is consumed and the result `min(base + noise, 1.0)` is
returned (note: the code clamps from above only). -/
def HealthcareInfrastructure.get_facility_utilization
    (infra : HealthcareInfrastructure) (facility_id : String) (rng : RNG) :
    Except SimErr ℚ × RNG :=
  match dictLookup facility_id infra.facilities with
  | none => (.ok 0, rng)
  | some facility =>
    if facility.capacity = 0 then (.error .zeroDivision, rng)
    else
      let base_utilization : ℚ :=
        min ((facility.staff_count : ℚ) / ((facility.capacity : ℚ) * (1/10))) 1
      let (noise, rng') := rng.draw
      (.ok (min (base_utilization + noise) 1), rng')

/-- Python `HealthcareInfrastructure.update_facility_quality`: clamp to `[0,1]`,
silently no-op on unknown ids. -/
def HealthcareInfrastructure.update_facility_quality
    (infra : HealthcareInfrastructure) (facility_id : String)
    (quality_score : ℚ) : HealthcareInfrastructure :=
  match dictLookup facility_id infra.facilities with
  | none => infra
  | some facility =>
    let f' := { facility with quality_score := max 0 (min 1 quality_score) }
    { infra with facilities := dictInsert facility_id f' infra.facilities }

/-- Python `components.py` `WorkforceDevelopment` state. -/
structure WorkforceDevelopment where
  workers : Dict HealthcareWorker
  training_programs : Dict (List String)
  deriving DecidableEq

def WorkforceDevelopment.empty : WorkforceDevelopment := ⟨[], []⟩

/-- Python `WorkforceDevelopment.add_worker`: insert and reset the training
list to `[]`. -/
def WorkforceDevelopment.add_worker
    (wf : WorkforceDevelopment) (worker : HealthcareWorker) :
    WorkforceDevelopment :=
  { workers := dictInsert worker.id worker wf.workers,
    training_programs := dictInsert worker.id [] wf.training_programs }

/-- Python `WorkforceDevelopment.assign_training`: append if the worker is
known and the program is not yet in the worker's list. -/
def WorkforceDevelopment.assign_training
    (wf : WorkforceDevelopment) (worker_id : String) (program : String) :
    WorkforceDevelopment :=
  match dictLookup worker_id wf.workers with
  | none => wf
  | some _ =>
    let current := (dictLookup worker_id wf.training_programs).getD []
    if program ∈ current then wf
    else
      { wf with training_programs :=
          dictInsert worker_id (current ++ [program]) wf.training_programs }

/-- Python `WorkforceDevelopment.update_performance`: clamp to `[0,1]`, no-op
on unknown ids. -/
def WorkforceDevelopment.update_performance
    (wf : WorkforceDevelopment) (worker_id : String)
    (performance_score : ℚ) : WorkforceDevelopment :=
  match dictLookup worker_id wf.workers with
  | none => wf
  | some worker =>
    let w' := { worker with performance_score := max 0 (min 1 performance_score) }
    { wf with workers := dictInsert worker_id w' wf.workers }

/-- Python `components.py` `HealthcareFinancing` state. -/
structure HealthcareFinancing where
  insurance_coverage : Dict ℚ
  facility_funding : Dict ℚ
  deriving DecidableEq

def HealthcareFinancing.empty : HealthcareFinancing := ⟨[], []⟩

/-- Python `HealthcareFinancing.set_insurance_coverage`: store the coverage
clamped to `[0,1]`. -/
def HealthcareFinancing.set_insurance_coverage
    (fin : HealthcareFinancing) (patient_id : String) (coverage : ℚ) :
    HealthcareFinancing :=
  { fin with insurance_coverage :=
      dictInsert patient_id (max 0 (min 1 coverage)) fin.insurance_coverage }

/-- Python `HealthcareFinancing.allocate_funding`: overwrite, no validation. -/
def HealthcareFinancing.allocate_funding
    (fin : HealthcareFinancing) (facility_id : String) (amount : ℚ) :
    HealthcareFinancing :=
  { fin with facility_funding :=
      dictInsert facility_id amount fin.facility_funding }

/-- Python `HealthcareFinancing.calculate_coverage_rate`: `0.0` on an empty
store, otherwise the mean of the stored coverages. -/
def HealthcareFinancing.calculate_coverage_rate
    (fin : HealthcareFinancing) : ℚ :=
  if fin.insurance_coverage = [] then 0
  else npMean (dictValues fin.insurance_coverage)

/-- Modelled from the spec: `HealthcareFinancing.getPatientCost`
(`calculate_patient_cost`) is absent from the sources — only the test
`tests/test_components.py` calls it — so it is taken from spec §4.3:
return `treatmentCost × (1 − coverage)`, with coverage defaulting to
`0.0` for unknown patients. -/
def HealthcareFinancing.calculate_patient_cost
    (fin : HealthcareFinancing) (patient_id : String)
    (treatment_cost : ℚ) : ℚ :=
  treatment_cost * (1 - (dictLookup patient_id fin.insurance_coverage).getD 0)

/-- Python `components.py` `DigitalHealth` state.  A record is its ordered list
of field keys. -/
structure DigitalHealth where
  electronic_records : Dict (List String)
  telemedicine_sessions : Dict (List String)
  deriving DecidableEq

def DigitalHealth.empty : DigitalHealth := ⟨[], []⟩

/-- Merge new field keys into a record's key list (`dict.update`:
existing keys keep their place, fresh keys are appended). -/
def recordMerge (current : List String) : List String → List String
  | [] => current
  | k :: ks =>
    recordMerge (if k ∈ current then current else current ++ [k]) ks

/-- Python `DigitalHealth.update_electronic_record`: create the record if
absent, then merge the given fields. -/
def DigitalHealth.update_electronic_record
    (dh : DigitalHealth) (patient_id : String) (fields : List String) :
    DigitalHealth :=
  let current := (dictLookup patient_id dh.electronic_records).getD []
  { dh with electronic_records :=
      (dictInsert patient_id (recordMerge current fields) dh.electronic_records) }

/-- Python `DigitalHealth.record_telemedicine_session`: append a session
marker, creating the list if absent. -/
def DigitalHealth.record_telemedicine_session
    (dh : DigitalHealth) (patient_id : String) : DigitalHealth :=
  let current := (dictLookup patient_id dh.telemedicine_sessions).getD []
  { dh with telemedicine_sessions :=
      (dictInsert patient_id (current ++ ["session_recorded"]) dh.telemedicine_sessions) }

/-- Python `DigitalHealth.get_patient_history`: the record, or empty. -/
def DigitalHealth.get_patient_history
    (dh : DigitalHealth) (patient_id : String) : List String :=
  (dictLookup patient_id dh.electronic_records).getD []

/-! ## `core.py`: `HealthcareSystemSimulation.calculate_healthcare_quality`

The engine's stepping loop never calls this function; it lives on the
other simulation class (`core.py`), which shares the same component
types.  It only reads the infrastructure and workforce components, so it
is embedded as a function of those.  `core.py` indexes
`self.infrastructure.facilities[facility_id]` directly, so an
unregistered id is a `KeyError`, modelled as `none`. -/
def calculate_healthcare_quality
    (infra : HealthcareInfrastructure) (wf : WorkforceDevelopment)
    (facility_id : String) : Option ℚ :=
  match dictLookup facility_id infra.facilities with
  | none => none
  | some facility =>
    let workers := (dictValues wf.workers).filter
      (fun w => w.facility_id = facility_id)
    if workers = [] then some facility.quality_score
    else
      let worker_scores := workers.map (fun w => w.performance_score)
      let equipment_quality : ℚ :=
        if facility.equipment = [] then 1/2
        else ((dictValues facility.equipment).map (fun n => (n : ℚ))).sum /
          facility.equipment.length
      some (npMean worker_scores * (6/10) + equipment_quality * (4/10))

/-! ## `engine.py`: `SimulationEngine` -/

/-- The four metric time series of `SimulationEngine.metrics` (the
Python dict holds exactly these four keys for the engine's whole
lifetime, so it is modelled as a fixed record). -/
structure Metrics where
  facility_utilization : List (ℕ × ℚ)
  healthcare_quality : List (ℕ × ℚ)
  insurance_coverage : List (ℕ × ℚ)
  digital_health_adoption : List (ℕ × ℚ)
  deriving DecidableEq

/-- Python `SimulationEngine` state. -/
structure SimulationEngine where
  start_date : ℕ
  end_date : ℕ
  current_date : ℕ
  infrastructure : HealthcareInfrastructure
  workforce : WorkforceDevelopment
  financing : HealthcareFinancing
  digital_health : DigitalHealth
  locations : Dict Location
  metrics : Metrics
  deriving DecidableEq

/-- Python `SimulationEngine.__init__(start_date, end_date)`: all stores empty,
all four metric series empty, `current_date = start_date`.  The
constructor performs no validation of the date range and has no raising
path. -/
def SimulationEngine.init (start_date end_date : ℕ) : SimulationEngine :=
  { start_date := start_date
    end_date := end_date
    current_date := start_date
    infrastructure := HealthcareInfrastructure.empty
    workforce := WorkforceDevelopment.empty
    financing := HealthcareFinancing.empty
    digital_health := DigitalHealth.empty
    locations := []
    metrics := ⟨[], [], [], []⟩ }

/-- Construction error taxonomy claimed by the spec (§6/§7). -/
inductive ConstructErr where
  | invalidRange
  deriving DecidableEq

/-- Construction viewed as a fallible operation: `__init__` contains no
check and no raise, so it always returns the initialized state. -/
def SimulationEngine.new (start_date end_date : ℕ) :
    Except ConstructErr SimulationEngine :=
  .ok (SimulationEngine.init start_date end_date)

/-- Python `SimulationEngine.add_location`. -/
def SimulationEngine.add_location
    (s : SimulationEngine) (location : Location) : SimulationEngine :=
  { s with locations := dictInsert location.id location s.locations }

/-- Python `SimulationEngine.add_facility`: register the facility and allocate
the default funding of `1000000`. -/
def SimulationEngine.add_facility
    (s : SimulationEngine) (facility : Facility) : SimulationEngine :=
  { s with
    infrastructure := s.infrastructure.add_facility facility
    financing := s.financing.allocate_funding facility.id 1000000 }

/-- Python `SimulationEngine.add_healthcare_worker`: register the worker and
assign the initial `"basic_healthcare"` training. -/
def SimulationEngine.add_healthcare_worker
    (s : SimulationEngine) (worker : HealthcareWorker) : SimulationEngine :=
  { s with workforce :=
      ((s.workforce.add_worker worker).assign_training worker.id
        "basic_healthcare") }

/-- Python `SimulationEngine.add_patient`: coverage `0.7` when insured else
`0.0`, and an initial electronic record with the three field keys the
code writes. -/
def SimulationEngine.add_patient
    (s : SimulationEngine) (patient : Patient) : SimulationEngine :=
  let coverage : ℚ := if patient.insurance_status = "insured" then 7/10 else 0
  { s with
    financing := s.financing.set_insurance_coverage patient.id coverage
    digital_health := s.digital_health.update_electronic_record patient.id
      ["patient_info", "medical_history", "current_conditions"] }

/-- The per-facility loop body of
`SimulationEngine.simulate_facility_operations`: walk the facility store
in insertion order, for each facility read its utilization (consuming
one Gaussian draw, or raising on `capacity = 0`) and compute the daily
quality — the mean performance of the workers whose `facility_id`
matches, or `0.5` when there are none.  Returns the two accumulated
lists.  A raise abandons the accumulated (local) lists but keeps the
draws consumed so far. -/
def facilityOpsLoop (infra : HealthcareInfrastructure)
    (wf : WorkforceDevelopment) (rng : RNG) :
    List (String × Facility) → Except SimErr (List ℚ × List ℚ) × RNG
  | [] => (.ok ([], []), rng)
  | (facility_id, _) :: rest =>
    match infra.get_facility_utilization facility_id rng with
    | (.error e, rng') => (.error e, rng')
    | (.ok utilization, rng') =>
      let workers := (dictValues wf.workers).filter
        (fun w => w.facility_id = facility_id)
      let quality : ℚ :=
        if workers = [] then 1/2
        else npMean (workers.map (fun w => w.performance_score))
      match facilityOpsLoop infra wf rng' rest with
      | (.ok (us, qs), rng'') => (.ok (utilization :: us, quality :: qs), rng'')
      | (.error e, rng'') => (.error e, rng'')

/-- Python `SimulationEngine.simulate_facility_operations`: aggregate the
per-facility utilizations and qualities into daily means (`0.0` when
there are no facilities) and append one `(current_date, value)` point to
`facility_utilization` and to `healthcare_quality`.  A raise in the loop
leaves the metric series untouched (the appends happen after the
loop). -/
def SimulationEngine.simulate_facility_operations
    (s : SimulationEngine) (rng : RNG) : SimResult × SimulationEngine × RNG :=
  match facilityOpsLoop s.infrastructure s.workforce rng
      s.infrastructure.facilities with
  | (.error e, rng') => (.error e, s, rng')
  | (.ok (utilizations, qualities), rng') =>
    let avg_utilization : ℚ := if utilizations = [] then 0 else npMean utilizations
    let avg_quality : ℚ := if qualities = [] then 0 else npMean qualities
    let m := s.metrics
    let m' := { m with
      facility_utilization :=
        m.facility_utilization ++ [(s.current_date, avg_utilization)]
      healthcare_quality :=
        m.healthcare_quality ++ [(s.current_date, avg_quality)] }
    (.ok (), { s with metrics := m' }, rng')

/-- The per-patient loop of `SimulationEngine.simulate_patient_care`:
for each patient id known to Financing, draw once; on a draw `< 0.1`
record a telemedicine session and merge a `"last_visit"` field into the
patient's record. -/
def patientCareLoop (dh : DigitalHealth) (rng : RNG) :
    List (String × ℚ) → DigitalHealth × RNG
  | [] => (dh, rng)
  | (patient_id, _) :: rest =>
    let (r, rng') := rng.draw
    if r < 1/10 then
      let dh' := (dh.record_telemedicine_session patient_id
        ).update_electronic_record patient_id ["last_visit"]
      patientCareLoop dh' rng' rest
    else patientCareLoop dh rng' rest

/-- Python `SimulationEngine.simulate_patient_care`. -/
def SimulationEngine.simulate_patient_care
    (s : SimulationEngine) (rng : RNG) : SimulationEngine × RNG :=
  let (dh, rng') :=
    patientCareLoop s.digital_health rng s.financing.insurance_coverage
  ({ s with digital_health := dh }, rng')

/-- The fixed training catalog of
`SimulationEngine.simulate_workforce_development`. -/
def trainingCatalog : List String :=
  ["advanced_care", "specialized_treatment",
   "emergency_response", "quality_improvement"]

/-- Python `np.random.choice` over the 4-element catalog, modelled as consuming
one draw and mapping it to an index. -/
def choiceIndex (r : ℚ) : ℕ := (⌊r * 4⌋).toNat % 4

/-- The per-worker loop of
`SimulationEngine.simulate_workforce_development`: for each worker id,
draw once; on a draw `< 0.05` draw again to choose a program from the
catalog and assign it. -/
def workforceLoop (wf : WorkforceDevelopment) (rng : RNG) :
    List (String × HealthcareWorker) → WorkforceDevelopment × RNG
  | [] => (wf, rng)
  | (worker_id, _) :: rest =>
    let (r, rng') := rng.draw
    if r < 1/20 then
      let (c, rng'') := rng'.draw
      let new_training := trainingCatalog.getD (choiceIndex c) "advanced_care"
      workforceLoop (wf.assign_training worker_id new_training) rng'' rest
    else workforceLoop wf rng' rest

/-- Python `SimulationEngine.simulate_workforce_development` (the loop iterates
the worker store, which `assign_training` never modifies). -/
def SimulationEngine.simulate_workforce_development
    (s : SimulationEngine) (rng : RNG) : SimulationEngine × RNG :=
  let (wf, rng') := workforceLoop s.workforce rng s.workforce.workers
  ({ s with workforce := wf }, rng')

/-- Python `SimulationEngine.calculate_metrics`: append the daily
insurance-coverage mean and the adoption ratio
`len(electronic_records) / len(insurance_coverage)`.  With an empty
coverage store the division raises `ZeroDivisionError` — there is no
guard.  (In that case `np.mean([])` quietly produces a `nan` point for
`insurance_coverage` first; `nan` is not representable in `ℚ` and that
point is unobservable by anything proved here, so the raising branch
returns the state unchanged.) -/
def SimulationEngine.calculate_metrics
    (s : SimulationEngine) : SimResult × SimulationEngine :=
  if s.financing.insurance_coverage = [] then (.error .zeroDivision, s)
  else
    let coverage := npMean (dictValues s.financing.insurance_coverage)
    let adoption : ℚ := (s.digital_health.electronic_records.length : ℚ) /
      (s.financing.insurance_coverage.length : ℚ)
    let m := s.metrics
    let m' := { m with
      insurance_coverage :=
        m.insurance_coverage ++ [(s.current_date, coverage)]
      digital_health_adoption :=
        m.digital_health_adoption ++ [(s.current_date, adoption)] }
    (.ok (), { s with metrics := m' })

/-- Python `SimulationEngine.step`: raise `StopIteration` (a
`SimulationComplete` control signal) when `current_date >= end_date`,
before any mutation; otherwise run the four daily phases in order and
advance `current_date` by one day.  A raise in a phase keeps the
mutations of the completed phases. -/
def SimulationEngine.step
    (s : SimulationEngine) (rng : RNG) : SimResult × SimulationEngine × RNG :=
  if s.end_date ≤ s.current_date then (.error .simulationComplete, s, rng)
  else
    match s.simulate_facility_operations rng with
    | (.error e, s1, rng1) => (.error e, s1, rng1)
    | (.ok _, s1, rng1) =>
      let (s2, rng2) := s1.simulate_patient_care rng1
      let (s3, rng3) := s2.simulate_workforce_development rng2
      match s3.calculate_metrics with
      | (.error e, s4) => (.error e, s4, rng3)
      | (.ok _, s4) =>
        (.ok (), { s4 with current_date := s4.current_date + 1 }, rng3)

/-- The `while current_date < end_date` loop of
`SimulationEngine.run`, with the remaining number of days as fuel: a
successful `step` advances `current_date` by one day, so
`end_date - current_date` days of fuel always suffice.  `StopIteration`
is caught and turns into a normal exit; any other raise propagates. -/
def runLoop : ℕ → SimulationEngine → RNG → SimResult × SimulationEngine × RNG
  | 0, s, rng => (.ok (), s, rng)
  | fuel + 1, s, rng =>
    if s.current_date < s.end_date then
      match s.step rng with
      | (.ok _, s', rng') => runLoop fuel s' rng'
      | (.error .simulationComplete, s', rng') => (.ok (), s', rng')
      | (.error e, s', rng') => (.error e, s', rng')
    else (.ok (), s, rng)

/-- Python `SimulationEngine.run`. -/
def SimulationEngine.run
    (s : SimulationEngine) (rng : RNG) : SimResult × SimulationEngine × RNG :=
  runLoop (s.end_date - s.current_date) s rng

/-- Python `SimulationEngine.get_metrics`. -/
def SimulationEngine.get_metrics (s : SimulationEngine) : Metrics := s.metrics

/-- The per-facility daily quality computed by the body of
`simulate_facility_operations` (engine.py lines 85–91): the mean
performance of the workers assigned to the facility, or `0.5` when none
are. -/
def dailyQuality (wf : WorkforceDevelopment) (facility_id : String) : ℚ :=
  let workers := (dictValues wf.workers).filter
    (fun w => w.facility_id = facility_id)
  if workers = [] then 1/2
  else npMean (workers.map (fun w => w.performance_score))

/-! ## Concrete fixtures (the entities of `tests/test_engine.py`) -/

/-- The `sample_facility` fixture of the repository's tests. -/
def testFacility : Facility :=
  ⟨"test_facility", "Test Hospital", "hospital", "test_location", 100, 20,
   [("xray", 2), ("mri", 1)], ["general", "emergency"], 4/5, "active"⟩

/-- The `sample_worker` fixture of the repository's tests. -/
def testWorker : HealthcareWorker :=
  ⟨"test_worker", "Dr. Test", "doctor", some "general", "test_facility", 5,
   ["MBBS", "MD"], ["diagnosis", "treatment"], 9/10, "active"⟩

/-- The `sample_patient` fixture of the repository's tests. -/
def testPatient : Patient :=
  ⟨"test_patient", "John Doe", 30, "male", "test_location", "insured",
   [], ["fever"], "middle"⟩

/-- A two-day engine populated with the three test fixtures. -/
def engine0 : SimulationEngine :=
  (((SimulationEngine.init 0 2).add_facility testFacility
    ).add_healthcare_worker testWorker).add_patient testPatient

/-- A one-day engine populated with the three test fixtures. -/
def engine1 : SimulationEngine :=
  (((SimulationEngine.init 0 1).add_facility testFacility
    ).add_healthcare_worker testWorker).add_patient testPatient

/-- A global generator whose every draw is `0`. -/
def rngZero : RNG := ⟨fun _ => 0, 0⟩

/-- A global generator whose every draw is `-1/2`. -/
def rngNeg : RNG := ⟨fun _ => -(1/2), 0⟩

/-! ## Dictionary lemmas -/

theorem dictLookup_dictInsert_self (k : String) (v : α) (d : Dict α) :
    dictLookup k (dictInsert k v d) = some v := by
  induction d with
  | nil => simp [dictInsert, dictLookup]
  | cons hd tl ih =>
    obtain ⟨k', v'⟩ := hd
    by_cases h : k' = k
    · simp [dictInsert, dictLookup, h]
    · simp [dictInsert, dictLookup, h, ih]

/-! ## Structure of the daily phases -/

/-- Every error produced by the facility loop is the division-by-zero
raise from a zero-capacity facility — never the completion signal. -/
theorem facilityOpsLoop_error_eq_zeroDivision
    (infra : HealthcareInfrastructure) (wf : WorkforceDevelopment) :
    ∀ (l : List (String × Facility)) (rng rng' : RNG) (e : SimErr),
      facilityOpsLoop infra wf rng l = (.error e, rng') → e = .zeroDivision := by
  intro l
  induction l with
  | nil => intro rng rng' e h; simp [facilityOpsLoop] at h
  | cons hd tl ih =>
    intro rng rng' e h
    obtain ⟨fid, fac⟩ := hd
    rw [facilityOpsLoop] at h
    rcases hu : infra.get_facility_utilization fid rng with ⟨ru, rngu⟩
    rw [hu] at h
    cases ru with
    | error eu =>
      simp at h
      rw [HealthcareInfrastructure.get_facility_utilization] at hu
      rcases hf : dictLookup fid infra.facilities with _ | fac'
      · rw [hf] at hu; simp at hu
      · rw [hf] at hu
        by_cases hc : fac'.capacity = 0
        · simp [hc] at hu
          rw [← h.1, ← hu.1]
        · simp [hc] at hu
    | ok u =>
      simp at h
      rcases hrec : facilityOpsLoop infra wf rngu tl with ⟨rres, rngr⟩
      rw [hrec] at h
      cases rres with
      | error er => simp at h; rw [← h.1]; exact ih rngu rngr er hrec
      | ok pr => simp at h

/-- On a successful facility loop, the collected quality list is exactly
the per-facility `dailyQuality`, facility by facility. -/
theorem facilityOpsLoop_ok_qualities
    (infra : HealthcareInfrastructure) (wf : WorkforceDevelopment) :
    ∀ (l : List (String × Facility)) (rng rng' : RNG) (us qs : List ℚ),
      facilityOpsLoop infra wf rng l = (.ok (us, qs), rng') →
        qs = l.map (fun p => dailyQuality wf p.1) ∧ us.length = l.length := by
  intro l
  induction l with
  | nil =>
    intro rng rng' us qs h
    simp [facilityOpsLoop] at h
    simp [h.1.1, h.1.2]
  | cons hd tl ih =>
    intro rng rng' us qs h
    obtain ⟨fid, fac⟩ := hd
    rw [facilityOpsLoop] at h
    rcases hu : infra.get_facility_utilization fid rng with ⟨ru, rngu⟩
    rw [hu] at h
    cases ru with
    | error eu => simp at h
    | ok u =>
      simp at h
      rcases hrec : facilityOpsLoop infra wf rngu tl with ⟨rres, rngr⟩
      rw [hrec] at h
      cases rres with
      | error er => simp at h
      | ok pr =>
        obtain ⟨us', qs'⟩ := pr
        simp at h
        obtain ⟨⟨hus, hqs⟩, -⟩ := h
        have := ih rngu rngr us' qs' hrec
        subst hus hqs
        refine ⟨?_, by simp [this.2]⟩
        simp [this.1, dailyQuality]

/-- A raising facility-operations phase returns the state unchanged
(the appends come after the loop) and raises only `ZeroDivisionError`. -/
theorem simulate_facility_operations_error
    (s s1 : SimulationEngine) (rng rng1 : RNG) (e : SimErr)
    (h : s.simulate_facility_operations rng = (.error e, s1, rng1)) :
    e = .zeroDivision ∧ s1 = s := by
  rw [SimulationEngine.simulate_facility_operations] at h
  rcases hl : facilityOpsLoop s.infrastructure s.workforce rng
      s.infrastructure.facilities with ⟨res, rng'⟩
  rw [hl] at h
  cases res with
  | error e' =>
    simp at h
    exact ⟨h.1 ▸ facilityOpsLoop_error_eq_zeroDivision s.infrastructure
      s.workforce s.infrastructure.facilities rng rng' e' hl, h.2.1.symm⟩
  | ok pr => obtain ⟨us, qs⟩ := pr; simp at h

/-- A successful facility-operations phase appends exactly the two
daily means, dated with the current date, and changes nothing else. -/
theorem simulate_facility_operations_ok
    (s s1 : SimulationEngine) (rng rng1 : RNG) (u : Unit)
    (h : s.simulate_facility_operations rng = (.ok u, s1, rng1)) :
    ∃ us qs rngl,
      facilityOpsLoop s.infrastructure s.workforce rng
        s.infrastructure.facilities = (.ok (us, qs), rngl) ∧
      s1 = { s with metrics :=
        { s.metrics with
          facility_utilization := s.metrics.facility_utilization ++
            [(s.current_date, if us = [] then 0 else npMean us)]
          healthcare_quality := s.metrics.healthcare_quality ++
            [(s.current_date, if qs = [] then 0 else npMean qs)] } } := by
  rw [SimulationEngine.simulate_facility_operations] at h
  rcases hl : facilityOpsLoop s.infrastructure s.workforce rng
      s.infrastructure.facilities with ⟨res, rng'⟩
  rw [hl] at h
  cases res with
  | error e' => simp at h
  | ok pr =>
    obtain ⟨us, qs⟩ := pr
    simp at h
    exact ⟨us, qs, rng', rfl, h.1.symm⟩

/-- The patient-care phase only touches the digital-health component. -/
theorem simulate_patient_care_preserves
    (s s2 : SimulationEngine) (rng rng2 : RNG)
    (h : s.simulate_patient_care rng = (s2, rng2)) :
    s2.metrics = s.metrics ∧ s2.current_date = s.current_date ∧
    s2.end_date = s.end_date ∧ s2.financing = s.financing ∧
    s2.infrastructure = s.infrastructure ∧ s2.workforce = s.workforce := by
  rw [SimulationEngine.simulate_patient_care] at h
  rcases hp : patientCareLoop s.digital_health rng
      s.financing.insurance_coverage with ⟨dh, rngp⟩
  rw [hp] at h
  simp at h
  rw [← h.1]
  exact ⟨rfl, rfl, rfl, rfl, rfl, rfl⟩

/-- The workforce-development phase only touches the workforce
component (and within it only the training lists). -/
theorem simulate_workforce_development_preserves
    (s s3 : SimulationEngine) (rng rng3 : RNG)
    (h : s.simulate_workforce_development rng = (s3, rng3)) :
    s3.metrics = s.metrics ∧ s3.current_date = s.current_date ∧
    s3.end_date = s.end_date ∧ s3.financing = s.financing ∧
    s3.infrastructure = s.infrastructure ∧
    s3.digital_health = s.digital_health := by
  rw [SimulationEngine.simulate_workforce_development] at h
  rcases hw : workforceLoop s.workforce rng s.workforce.workers with ⟨wf, rngw⟩
  rw [hw] at h
  simp at h
  rw [← h.1]
  exact ⟨rfl, rfl, rfl, rfl, rfl, rfl⟩

/-- A successful metrics phase appends exactly the daily coverage mean
and adoption ratio, dated with the current date; it raises exactly when
the coverage store is empty, leaving the modelled state unchanged. -/
theorem calculate_metrics_ok
    (s s4 : SimulationEngine) (u : Unit)
    (h : s.calculate_metrics = (.ok u, s4)) :
    s.financing.insurance_coverage ≠ [] ∧
    s4 = { s with metrics :=
      { s.metrics with
        insurance_coverage := s.metrics.insurance_coverage ++
          [(s.current_date, npMean (dictValues s.financing.insurance_coverage))]
        digital_health_adoption := s.metrics.digital_health_adoption ++
          [(s.current_date,
            (s.digital_health.electronic_records.length : ℚ) /
              (s.financing.insurance_coverage.length : ℚ))] } } := by
  rw [SimulationEngine.calculate_metrics] at h
  by_cases hc : s.financing.insurance_coverage = []
  · rw [if_pos hc] at h; simp at h
  · rw [if_neg hc] at h; simp at h; exact ⟨hc, h.symm⟩

/-- Python `calculate_metrics` raises exactly on an empty coverage store. -/
theorem calculate_metrics_error
    (s : SimulationEngine) (hc : s.financing.insurance_coverage = []) :
    s.calculate_metrics = (.error .zeroDivision, s) := by
  rw [SimulationEngine.calculate_metrics, if_pos hc]

/-- Full decomposition of a successful `step`: the date advances by one
day and every one of the four series receives exactly one appended
point, dated with the pre-step date, with the facility means coming from
the facility loop and the coverage mean from the pre-step coverage
store. -/
theorem step_ok_shape
    (s s' : SimulationEngine) (rng rng' : RNG)
    (h : s.step rng = (.ok (), s', rng')) :
    s'.current_date = s.current_date + 1 ∧
    ∃ us qs rngl,
      facilityOpsLoop s.infrastructure s.workforce rng
        s.infrastructure.facilities = (.ok (us, qs), rngl) ∧
      s'.metrics.facility_utilization =
        s.metrics.facility_utilization ++
          [(s.current_date, if us = [] then 0 else npMean us)] ∧
      s'.metrics.healthcare_quality =
        s.metrics.healthcare_quality ++
          [(s.current_date, if qs = [] then 0 else npMean qs)] ∧
      s'.metrics.insurance_coverage =
        s.metrics.insurance_coverage ++
          [(s.current_date, npMean (dictValues s.financing.insurance_coverage))] ∧
      ∃ v4, s'.metrics.digital_health_adoption =
        s.metrics.digital_health_adoption ++ [(s.current_date, v4)] := by
  rw [SimulationEngine.step] at h
  by_cases hd : s.end_date ≤ s.current_date
  · rw [if_pos hd] at h; simp at h
  · rw [if_neg hd] at h
    rcases h1 : s.simulate_facility_operations rng with ⟨r1, s1, rng1⟩
    rw [h1] at h
    cases r1 with
    | error e => simp at h
    | ok u1 =>
      simp at h
      rcases h2 : s1.simulate_patient_care rng1 with ⟨s2, rng2⟩
      rw [h2] at h
      simp at h
      rcases h3 : s2.simulate_workforce_development rng2 with ⟨s3, rng3⟩
      rw [h3] at h
      simp at h
      rcases h4 : s3.calculate_metrics with ⟨r4, s4⟩
      rw [h4] at h
      cases r4 with
      | error e => simp at h
      | ok u4 =>
        simp at h
        obtain ⟨hs', -⟩ := h
        obtain ⟨us, qs, rngl, hloop, hs1⟩ :=
          simulate_facility_operations_ok s s1 rng rng1 u1 h1
        obtain ⟨hm2, hcd2, -, hf2, -, -⟩ :=
          simulate_patient_care_preserves s1 s2 rng1 rng2 h2
        obtain ⟨hm3, hcd3, -, hf3, -, -⟩ :=
          simulate_workforce_development_preserves s2 s3 rng2 rng3 h3
        obtain ⟨-, hs4⟩ := calculate_metrics_ok s3 s4 u4 h4
        rw [← hs']
        have hcd : s3.current_date = s.current_date := by rw [hcd3, hcd2, hs1]
        have hfin : s3.financing = s.financing := by rw [hf3, hf2, hs1]
        constructor
        · simp [hs4, hcd3, hcd2, hs1]
        · refine ⟨us, qs, rngl, hloop, ?_, ?_, ?_,
            (s3.digital_health.electronic_records.length : ℚ) /
              (s3.financing.insurance_coverage.length : ℚ), ?_⟩
          · simp [hs4, hm3, hm2, hs1, hcd]
          · simp [hs4, hm3, hm2, hs1, hcd]
          · simp [hs4, hm3, hm2, hs1, hcd, hfin]
          · simp [hs4, hm3, hm2, hs1, hcd]

/-- A raising metrics phase is always the division-by-zero raise. -/
theorem calculate_metrics_error_eq
    (s s4 : SimulationEngine) (e : SimErr)
    (h : s.calculate_metrics = (.error e, s4)) :
    e = .zeroDivision ∧ s4 = s := by
  rw [SimulationEngine.calculate_metrics] at h
  by_cases hc : s.financing.insurance_coverage = []
  · rw [if_pos hc] at h; simp at h; exact ⟨h.1.symm, h.2.symm⟩
  · rw [if_neg hc] at h; simp at h

/-- Before the end date, `step` never raises the completion signal: its
only raising exits are division-by-zero raises. -/
theorem step_error_before_end (s : SimulationEngine) (rng : RNG)
    (hd : ¬ s.end_date ≤ s.current_date) :
    (s.step rng).1 ≠ .error .simulationComplete := by
  rw [SimulationEngine.step, if_neg hd]
  rcases h1 : s.simulate_facility_operations rng with ⟨r1, s1, rng1⟩
  cases r1 with
  | error e =>
    have he := (simulate_facility_operations_error s s1 rng rng1 e h1).1
    simp [he]
  | ok u1 =>
    simp only []
    rcases h2 : s1.simulate_patient_care rng1 with ⟨s2, rng2⟩
    rcases h3 : s2.simulate_workforce_development rng2 with ⟨s3, rng3⟩
    rcases h4 : s3.calculate_metrics with ⟨r4, s4⟩
    cases r4 with
    | error e =>
      have he := (calculate_metrics_error_eq s3 s4 e h4).1
      simp [he]
    | ok u4 => simp

/-- The `run` loop turns the completion signal into a normal exit and
never surfaces it. -/
theorem runLoop_never_simulationComplete :
    ∀ (fuel : ℕ) (s : SimulationEngine) (rng : RNG),
      (runLoop fuel s rng).1 ≠ .error .simulationComplete := by
  intro fuel
  induction fuel with
  | zero => intro s rng; simp [runLoop]
  | succ n ih =>
    intro s rng
    rw [runLoop]
    by_cases hd : s.current_date < s.end_date
    · rw [if_pos hd]
      rcases hs : s.step rng with ⟨r, s', rng'⟩
      cases r with
      | ok u => exact ih s' rng'
      | error e => cases e <;> simp
    · rw [if_neg hd]; simp

/-! ## Claim theorems -/

/-- A registered facility with valid capacity (`10 ≥ 1`) and no staff,
used to exhibit the missing lower clamp. -/
def lowStaffFacility : Facility :=
  ⟨"f_low", "Understaffed Clinic", "clinic", "loc0", 10, 0, [], [], 1/2,
   "active"⟩

/-- An infrastructure store holding only `lowStaffFacility`. -/
def infraLow : HealthcareInfrastructure :=
  HealthcareInfrastructure.empty.add_facility lowStaffFacility

/-- Claim C1 (code bug): `get_facility_utilization` is claimed to clamp
its result to `[0,1]`, but the code computes `min(base + noise, 1.0)` —
an upper clamp only.  For the registered facility `f_low`
(capacity `10 ≥ 1`, staff `0`) and a Gaussian draw of `-1/2`, the
returned utilization is `-1/2 < 0`, outside `[0,1]`, contradicting the
claim (and the repository's own test asserting
`0 <= utilization <= 1`). -/
theorem get_facility_utilization_below_zero :
    (infraLow.get_facility_utilization "f_low" rngNeg).1 = .ok (-(1/2)) ∧
    (-(1/2) : ℚ) < 0 := by
  constructor
  · norm_num [infraLow, lowStaffFacility, HealthcareInfrastructure.empty,
      HealthcareInfrastructure.add_facility,
      HealthcareInfrastructure.get_facility_utilization,
      dictInsert, dictLookup, RNG.draw, rngNeg, min_def]
  · norm_num

/-- Claim C4 counterexample: constructing the engine with
`end_date = 3 ≤ 5 = start_date` does not fail with `InvalidRange` — it
succeeds and returns the initialized state, refuting the claim that
construction fails for every non-increasing date range. -/
theorem new_nonincreasing_range_succeeds :
    SimulationEngine.new 5 3 = .ok (SimulationEngine.init 5 3) ∧
    (3 : ℕ) ≤ 5 :=
  ⟨rfl, by norm_num⟩

/-- Claim C4 (amended): construction never fails — `__init__` performs
no validation of the date range; for every pair of dates it returns a
state with `current_date = start_date`, the given bounds, and all four
metric series empty. -/
theorem new_always_succeeds (start_date end_date : ℕ) :
    SimulationEngine.new start_date end_date =
      .ok (SimulationEngine.init start_date end_date) ∧
    (SimulationEngine.init start_date end_date).current_date = start_date ∧
    (SimulationEngine.init start_date end_date).start_date = start_date ∧
    (SimulationEngine.init start_date end_date).end_date = end_date ∧
    (SimulationEngine.init start_date end_date).metrics = ⟨[], [], [], []⟩ :=
  ⟨rfl, rfl, rfl, rfl, rfl⟩

/-- Claim C8: `calculate_patient_cost` returns
`treatmentCost × (1 − coverage)`: after storing coverage `0.8` the cost
of a `1000` treatment is exactly `200`, and for a patient with no stored
coverage the default `0.0` applies, so the full treatment cost is
returned (`1000` stays `1000`, and in general `tc` stays `tc`). -/
theorem calculate_patient_cost_coverage_complement
    (fin : HealthcareFinancing) (pid : String) (tc : ℚ) :
    (fin.set_insurance_coverage pid (8/10)).calculate_patient_cost pid
      1000 = 200 ∧
    (dictLookup pid fin.insurance_coverage = none →
      fin.calculate_patient_cost pid tc = tc) := by
  constructor
  · norm_num [HealthcareFinancing.set_insurance_coverage,
      HealthcareFinancing.calculate_patient_cost,
      dictLookup_dictInsert_self, max_def, min_def]
  · intro h
    simp [HealthcareFinancing.calculate_patient_cost, h]

/-- Witness for C8: on an empty financing store every patient is
unknown, so the full cost of `1000` is charged. -/
theorem calculate_patient_cost_coverage_complement_witness :
    HealthcareFinancing.empty.calculate_patient_cost "test_patient"
      1000 = 1000 :=
  (calculate_patient_cost_coverage_complement
    HealthcareFinancing.empty "test_patient" 1000).2 rfl

/-- Claim C3 counterexample: on an engine with no registered patients
and `current_date < end_date`, `step()` does not succeed — the adoption
ratio `len(electronic_records) / len(insurance_coverage)` has no
division-by-zero guard, so the daily loop raises `ZeroDivisionError`
mid-day instead of appending `0.0`. -/
theorem step_no_patients_raises :
    (SimulationEngine.init 0 2).current_date <
      (SimulationEngine.init 0 2).end_date ∧
    ((SimulationEngine.init 0 2).step rngZero).1 =
      .error .zeroDivision := by
  constructor
  · norm_num [SimulationEngine.init]
  · norm_num [SimulationEngine.step, SimulationEngine.init,
      SimulationEngine.simulate_facility_operations,
      SimulationEngine.simulate_patient_care,
      SimulationEngine.simulate_workforce_development,
      SimulationEngine.calculate_metrics, facilityOpsLoop, patientCareLoop,
      workforceLoop, HealthcareInfrastructure.empty,
      WorkforceDevelopment.empty, HealthcareFinancing.empty,
      DigitalHealth.empty, npMean, dictValues, rngZero]

/-- Claim C3 (amended): whenever the insurance-coverage store is empty
and `current_date < end_date`, `step()` raises `ZeroDivisionError` from
the unguarded adoption-ratio division (or, degenerately, from a
zero-capacity facility) — the daily aggregation loop is total only when
at least one patient is registered. -/
theorem step_empty_coverage_raises_zeroDivision
    (s : SimulationEngine) (rng : RNG)
    (hcov : s.financing.insurance_coverage = [])
    (hd : s.current_date < s.end_date) :
    (s.step rng).1 = .error .zeroDivision := by
  rw [SimulationEngine.step, if_neg (not_le.mpr hd)]
  rcases h1 : s.simulate_facility_operations rng with ⟨r1, s1, rng1⟩
  cases r1 with
  | error e =>
    have he := (simulate_facility_operations_error s s1 rng rng1 e h1).1
    simp [he]
  | ok u1 =>
    rcases h2 : s1.simulate_patient_care rng1 with ⟨s2, rng2⟩
    rcases h3 : s2.simulate_workforce_development rng2 with ⟨s3, rng3⟩
    have hf1 : s1.financing = s.financing := by
      obtain ⟨us, qs, rngl, -, hs1⟩ :=
        simulate_facility_operations_ok s s1 rng rng1 u1 h1
      rw [hs1]
    have hf2 := (simulate_patient_care_preserves s1 s2 rng1 rng2 h2).2.2.2.1
    have hf3 :=
      (simulate_workforce_development_preserves s2 s3 rng2 rng3 h3).2.2.2.1
    have hc3 : s3.financing.insurance_coverage = [] := by
      rw [hf3, hf2, hf1, hcov]
    have h4 := calculate_metrics_error s3 hc3
    simp [h2, h3, h4]

/-- Witness for C3: the freshly initialized two-day engine has an empty
coverage store, and its first step raises the division error. -/
theorem step_empty_coverage_raises_zeroDivision_witness :
    ((SimulationEngine.init 0 2).step rngNeg).1 = .error .zeroDivision :=
  step_empty_coverage_raises_zeroDivision (SimulationEngine.init 0 2) rngNeg
    rfl (by norm_num [SimulationEngine.init])

/-- Claim C6: `step` raises the completion signal exactly when
`current_date ≥ end_date`; in that case it raises before any mutation,
returning state and generator unchanged; and `run` catches the signal —
its result is never the completion signal. -/
theorem step_simulationComplete_iff_past_end
    (s : SimulationEngine) (rng : RNG) :
    ((s.step rng).1 = .error .simulationComplete ↔
      s.end_date ≤ s.current_date) ∧
    (s.end_date ≤ s.current_date →
      s.step rng = (.error .simulationComplete, s, rng)) ∧
    (s.run rng).1 ≠ .error .simulationComplete := by
  have hpast : s.end_date ≤ s.current_date →
      s.step rng = (.error .simulationComplete, s, rng) := by
    intro hd; rw [SimulationEngine.step, if_pos hd]
  refine ⟨⟨?_, fun hd => by rw [hpast hd]⟩, hpast,
    runLoop_never_simulationComplete _ s rng⟩
  intro h
  by_contra hd
  exact step_error_before_end s rng hd h

/-- Witness for C6: stepping an engine already past its end date
(`end_date = 3 ≤ 5 = current_date`) returns the completion signal with
the state and the generator untouched. -/
theorem step_simulationComplete_iff_past_end_witness :
    (SimulationEngine.init 5 3).step rngZero =
      (.error .simulationComplete, SimulationEngine.init 5 3, rngZero) :=
  (step_simulationComplete_iff_past_end
    (SimulationEngine.init 5 3) rngZero).2.1 (by norm_num [SimulationEngine.init])

/-- Claim C7: a successful `step` advances `current_date` by exactly one
day and appends exactly one `(date, value)` point — dated with the
pre-step date — to each of the four metric series, so each series grows
by exactly one entry per successful step. -/
theorem step_advances_one_day_and_appends_one_point
    (s : SimulationEngine) (rng : RNG) (h : (s.step rng).1 = .ok ()) :
    (s.step rng).2.1.current_date = s.current_date + 1 ∧
    (∃ v1 v2 v3 v4,
      (s.step rng).2.1.metrics.facility_utilization =
        s.metrics.facility_utilization ++ [(s.current_date, v1)] ∧
      (s.step rng).2.1.metrics.healthcare_quality =
        s.metrics.healthcare_quality ++ [(s.current_date, v2)] ∧
      (s.step rng).2.1.metrics.insurance_coverage =
        s.metrics.insurance_coverage ++ [(s.current_date, v3)] ∧
      (s.step rng).2.1.metrics.digital_health_adoption =
        s.metrics.digital_health_adoption ++ [(s.current_date, v4)]) ∧
    (s.step rng).2.1.metrics.facility_utilization.length =
      s.metrics.facility_utilization.length + 1 ∧
    (s.step rng).2.1.metrics.healthcare_quality.length =
      s.metrics.healthcare_quality.length + 1 ∧
    (s.step rng).2.1.metrics.insurance_coverage.length =
      s.metrics.insurance_coverage.length + 1 ∧
    (s.step rng).2.1.metrics.digital_health_adoption.length =
      s.metrics.digital_health_adoption.length + 1 := by
  rcases he : s.step rng with ⟨r, s', rng'⟩
  rw [he] at h
  simp at h
  subst h
  obtain ⟨hcd, us, qs, rngl, hloop, hfu, hhq, hic, v4, hdha⟩ :=
    step_ok_shape s s' rng rng' he
  exact ⟨hcd, ⟨_, _, _, _, hfu, hhq, hic, hdha⟩,
    by simp [hfu], by simp [hhq], by simp [hic], by simp [hdha]⟩

/-- Witness for C7: the first step of the populated two-day test engine
succeeds and advances its date from `0` to `1`. -/
theorem step_advances_one_day_witness :
    (engine0.step rngZero).2.1.current_date = engine0.current_date + 1 :=
  (step_advances_one_day_and_appends_one_point engine0 rngZero
    (by norm_num [SimulationEngine.step, SimulationEngine.simulate_facility_operations,
      SimulationEngine.simulate_patient_care,
      SimulationEngine.simulate_workforce_development,
      SimulationEngine.calculate_metrics, facilityOpsLoop, patientCareLoop,
      workforceLoop, HealthcareInfrastructure.get_facility_utilization,
      engine0, SimulationEngine.init, SimulationEngine.add_facility,
      SimulationEngine.add_healthcare_worker, SimulationEngine.add_patient,
      HealthcareInfrastructure.add_facility, HealthcareInfrastructure.empty,
      WorkforceDevelopment.empty, HealthcareFinancing.empty,
      DigitalHealth.empty, WorkforceDevelopment.add_worker,
      WorkforceDevelopment.assign_training,
      HealthcareFinancing.set_insurance_coverage,
      HealthcareFinancing.allocate_funding,
      DigitalHealth.update_electronic_record,
      DigitalHealth.record_telemedicine_session, recordMerge, dictInsert,
      dictLookup, dictValues, npMean, RNG.draw, testFacility, testWorker,
      testPatient, trainingCatalog, choiceIndex, rngZero])).1

/-- Claim C2 counterexample: the populated test engine (facility with
equipment counts `{xray: 2, mri: 1}`, one worker with performance
`0.9`) gets the daily healthcare-quality value `0.9` — the bare mean of
worker performances — while the `0.6/0.4` equipment blend prescribed by
the claim (computed by `core.py`'s `calculate_healthcare_quality`)
equals `57/50 ≠ 0.9`.  The daily step does not compute the blend. -/
theorem daily_step_quality_is_not_the_equipment_blend :
    (engine0.step rngZero).2.1.metrics.healthcare_quality = [(0, 9/10)] ∧
    calculate_healthcare_quality engine0.infrastructure engine0.workforce
      "test_facility" = some (57/50) ∧
    ((9 : ℚ)/10) ≠ 57/50 := by
  refine ⟨?_, ?_, by norm_num⟩
  · norm_num [SimulationEngine.step, SimulationEngine.simulate_facility_operations,
      SimulationEngine.simulate_patient_care,
      SimulationEngine.simulate_workforce_development,
      SimulationEngine.calculate_metrics, facilityOpsLoop, patientCareLoop,
      workforceLoop, HealthcareInfrastructure.get_facility_utilization,
      engine0, SimulationEngine.init, SimulationEngine.add_facility,
      SimulationEngine.add_healthcare_worker, SimulationEngine.add_patient,
      HealthcareInfrastructure.add_facility, HealthcareInfrastructure.empty,
      WorkforceDevelopment.empty, HealthcareFinancing.empty,
      DigitalHealth.empty, WorkforceDevelopment.add_worker,
      WorkforceDevelopment.assign_training,
      HealthcareFinancing.set_insurance_coverage,
      HealthcareFinancing.allocate_funding,
      DigitalHealth.update_electronic_record,
      DigitalHealth.record_telemedicine_session, recordMerge, dictInsert,
      dictLookup, dictValues, npMean, RNG.draw, testFacility, testWorker,
      testPatient, trainingCatalog, choiceIndex, rngZero]
  · norm_num [calculate_healthcare_quality, engine0, SimulationEngine.init,
      SimulationEngine.add_facility, SimulationEngine.add_healthcare_worker,
      SimulationEngine.add_patient, HealthcareInfrastructure.add_facility,
      HealthcareInfrastructure.empty, WorkforceDevelopment.empty,
      HealthcareFinancing.empty, DigitalHealth.empty,
      WorkforceDevelopment.add_worker, WorkforceDevelopment.assign_training,
      HealthcareFinancing.set_insurance_coverage,
      HealthcareFinancing.allocate_funding,
      DigitalHealth.update_electronic_record, recordMerge, dictInsert,
      dictLookup, dictValues, npMean, testFacility, testWorker, testPatient]
    rw [if_neg (show ¬([("xray", (2 : ℤ)), ("mri", 1)] : Dict ℤ) = [] by simp)]
    norm_num

/-- Claim C2 (amended): during a successful daily step over a non-empty
facility store, the appended healthcare-quality point is the mean over
all facilities of the per-facility daily quality — the mean performance
of the facility's workers, or the constant `0.5` for a facility without
workers.  The equipment blend and the static `quality_score` fallback
belong to `core.py`'s `calculate_healthcare_quality`, which the step
never calls. -/
theorem step_quality_is_mean_of_daily_qualities
    (s : SimulationEngine) (rng : RNG)
    (hfac : s.infrastructure.facilities ≠ [])
    (h : (s.step rng).1 = .ok ()) :
    (s.step rng).2.1.metrics.healthcare_quality =
      s.metrics.healthcare_quality ++
        [(s.current_date,
          npMean (s.infrastructure.facilities.map
            (fun p => dailyQuality s.workforce p.1)))] := by
  rcases he : s.step rng with ⟨r, s', rng'⟩
  rw [he] at h
  simp at h
  subst h
  obtain ⟨-, us, qs, rngl, hloop, -, hhq, -, -, -⟩ :=
    step_ok_shape s s' rng rng' he
  obtain ⟨hqs, -⟩ := facilityOpsLoop_ok_qualities s.infrastructure
    s.workforce s.infrastructure.facilities rng rngl us qs hloop
  have hqsne : qs ≠ [] := by
    rw [hqs]; simpa using hfac
  show s'.metrics.healthcare_quality = _
  rw [hhq, if_neg hqsne, hqs]

/-- Witness for C2: on the populated test engine the appended quality
point is the worker-performance mean. -/
theorem step_quality_is_mean_of_daily_qualities_witness :
    (engine0.step rngZero).2.1.metrics.healthcare_quality =
      engine0.metrics.healthcare_quality ++
        [(engine0.current_date,
          npMean (engine0.infrastructure.facilities.map
            (fun p => dailyQuality engine0.workforce p.1)))] :=
  step_quality_is_mean_of_daily_qualities engine0 rngZero
    (by norm_num [engine0, SimulationEngine.init, SimulationEngine.add_facility,
      SimulationEngine.add_healthcare_worker, SimulationEngine.add_patient,
      HealthcareInfrastructure.add_facility, HealthcareInfrastructure.empty,
      dictInsert])
    (by norm_num [SimulationEngine.step, SimulationEngine.simulate_facility_operations,
      SimulationEngine.simulate_patient_care,
      SimulationEngine.simulate_workforce_development,
      SimulationEngine.calculate_metrics, facilityOpsLoop, patientCareLoop,
      workforceLoop, HealthcareInfrastructure.get_facility_utilization,
      engine0, SimulationEngine.init, SimulationEngine.add_facility,
      SimulationEngine.add_healthcare_worker, SimulationEngine.add_patient,
      HealthcareInfrastructure.add_facility, HealthcareInfrastructure.empty,
      WorkforceDevelopment.empty, HealthcareFinancing.empty,
      DigitalHealth.empty, WorkforceDevelopment.add_worker,
      WorkforceDevelopment.assign_training,
      HealthcareFinancing.set_insurance_coverage,
      HealthcareFinancing.allocate_funding,
      DigitalHealth.update_electronic_record,
      DigitalHealth.record_telemedicine_session, recordMerge, dictInsert,
      dictLookup, dictValues, npMean, RNG.draw, testFacility, testWorker,
      testPatient, trainingCatalog, choiceIndex, rngZero])

/-- Claim C5 counterexample: two engines constructed and populated
identically (they are the same state `engine1`) produce different
facility-utilization series when the ambient global generator differs:
the constructor takes no seed, so identical construction does not pin
down the run's output — the randomness is the process-global stream,
not an injected source. -/
theorem run_metrics_differ_across_global_streams :
    (engine1.run rngZero).2.1.metrics.facility_utilization ≠
      (engine1.run rngNeg).2.1.metrics.facility_utilization := by
  norm_num [SimulationEngine.run, runLoop, SimulationEngine.step,
    SimulationEngine.simulate_facility_operations,
    SimulationEngine.simulate_patient_care,
    SimulationEngine.simulate_workforce_development,
    SimulationEngine.calculate_metrics, facilityOpsLoop, patientCareLoop,
    workforceLoop, HealthcareInfrastructure.get_facility_utilization,
    engine1, SimulationEngine.init, SimulationEngine.add_facility,
    SimulationEngine.add_healthcare_worker, SimulationEngine.add_patient,
    HealthcareInfrastructure.add_facility, HealthcareInfrastructure.empty,
    WorkforceDevelopment.empty, HealthcareFinancing.empty,
    DigitalHealth.empty, WorkforceDevelopment.add_worker,
    WorkforceDevelopment.assign_training,
    HealthcareFinancing.set_insurance_coverage,
    HealthcareFinancing.allocate_funding,
    DigitalHealth.update_electronic_record,
    DigitalHealth.record_telemedicine_session, recordMerge, dictInsert,
    dictLookup, dictValues, npMean, RNG.draw, testFacility, testWorker,
    testPatient, trainingCatalog, choiceIndex, rngZero, rngNeg, min_def]

/-- Claim C5 (amended): a full run is a pure function of the engine
state and of the global random stream: runs that read pointwise-equal
streams from the same position produce identical results — metric
series included.  Reproducibility therefore requires fixing the
process-global stream; no seed can be injected through the
constructor. -/
theorem run_deterministic_in_global_stream
    (s : SimulationEngine) (i : ℕ) (g1 g2 : ℕ → ℚ)
    (h : ∀ j, g1 j = g2 j) :
    s.run ⟨g1, i⟩ = s.run ⟨g2, i⟩ := by
  have hg : g1 = g2 := funext h
  rw [hg]

/-- Witness for C5: two syntactically different but pointwise-equal
global streams drive `engine1` to the same result. -/
theorem run_deterministic_in_global_stream_witness :
    engine1.run ⟨fun _ => 0, 0⟩ = engine1.run ⟨fun j => 0 * (j : ℚ), 0⟩ :=
  run_deterministic_in_global_stream engine1 0 (fun _ => 0)
    (fun j => 0 * (j : ℚ)) (fun j => by norm_num)

/-- Claim C9: adding a facility through the engine allocates the
default funding of `1,000,000` to it in the financing component. -/
theorem add_facility_allocates_default_funding
    (s : SimulationEngine) (f : Facility) :
    dictLookup f.id (s.add_facility f).financing.facility_funding =
      some 1000000 := by
  simp [SimulationEngine.add_facility, HealthcareFinancing.allocate_funding,
    dictLookup_dictInsert_self]

/-- Claim C10: adding a worker through the engine leaves the worker's
training-program list at exactly `["basic_healthcare"]`: `add_worker`
resets it to `[]` and the engine then assigns the initial program. -/
theorem add_healthcare_worker_assigns_basic_training
    (s : SimulationEngine) (w : HealthcareWorker) :
    dictLookup w.id (s.add_healthcare_worker w).workforce.training_programs =
      some ["basic_healthcare"] := by
  simp [SimulationEngine.add_healthcare_worker,
    WorkforceDevelopment.add_worker, WorkforceDevelopment.assign_training,
    dictLookup_dictInsert_self]

